import Mathlib

/-!
Shallow embedding of the rom1504.github.io client core:
a router (MainPage.pages), a post index (BlogsPage.render), and a post
resolver and renderer (BlogPage.init / BlogPage.render).

The post registry (blogs.js, a static list of ids) and the document store
(the bundled markdown assets loaded by dynamic import) are external data:
they are passed as parameters (a list of ids, and a function from id to
an optional raw document, none meaning the import rejects).
-/

/-- Model of the JavaScript String.prototype.split with a single-character
separator: "" splits to [""], a leading or trailing separator yields an
empty segment, adjacent separators yield empty segments in between.
Defined over the character list so that concrete inputs evaluate. -/
def jsSplit (s : String) (sep : Char) : List String :=
  (s.toList.splitOn sep).map (fun cs => String.mk cs)

/-- Model of the JavaScript String.prototype.startsWith, over the
character list so that concrete inputs evaluate. -/
def jsStartsWith (s pre : String) : Bool :=
  List.isPrefixOf pre.toList s.toList

/-- Output of the router: which view is mounted in the page slot. The post
view carries the id extracted from the path; the id is absent (JS
undefined) when the path has no third slash-delimited segment. -/
inductive ViewDescriptor where
  | home : ViewDescriptor
  | index : ViewDescriptor
  | post (id : Option String) : ViewDescriptor
deriving DecidableEq, Repr

/-- Browser location, as read by MainPage.pages through
window.location. Only pathname is ever read by the code; search and hash
are carried to state frame properties. -/
structure Location where
  pathname : String
  search : String
  hash : String

/-- Embedding of MainPage.pages: first-match dispatch on
window.location.pathname, together with the list of console.log outputs
the call emits (pages logs the pathname once the two exact matches fail,
and additionally the string "blog" in the startsWith branch). A missing
view (JS undefined return) is none. -/
def MainPage.pages (loc : Location) : Option ViewDescriptor × List String :=
  if loc.pathname = "/" then
    (some ViewDescriptor.home, [])
  else if loc.pathname = "/blog" then
    (some ViewDescriptor.index, [])
  else if jsStartsWith loc.pathname "/blog" then
    (some (ViewDescriptor.post ((jsSplit loc.pathname '/')[2]?)),
     [loc.pathname, "blog"])
  else
    (none, [loc.pathname])

/-- View selection as a function of the path alone (the spec's
selectView): the view component of MainPage.pages at a location with that
pathname. -/
def selectView (path : String) : Option ViewDescriptor :=
  (MainPage.pages { pathname := path, search := "", hash := "" }).1

/-- Third slash-delimited segment of a path, as the spec words it: the
element at index 2 of the split on "/", absent when fewer than three
segments exist. -/
def thirdSegment (p : String) : Option String :=
  (jsSplit p '/')[2]?

/-- A rendered anchor: href target and link text. -/
structure Link where
  href : String
  text : String
deriving DecidableEq, Repr

/-- Markup produced by MainPage.render: the fixed navigation links and the
page slot holding the routed view (nothing is rendered in the slot when
the router returned no view). -/
structure MainMarkup where
  navLinks : List Link
  slot : Option ViewDescriptor

/-- Embedding of MainPage.render: fixed nav plus the routed page slot. -/
def MainPage.render (loc : Location) : MainMarkup :=
  { navLinks := [{ href := "/", text := "Home" }, { href := "/blog", text := "Blog" }],
    slot := (MainPage.pages loc).1 }

/-- Embedding of BlogsPage.render: one link per registered id, in registry
order, each pointing at the corresponding post path. -/
def BlogsPage.render (blogs : List String) : List Link :=
  blogs.map (fun blog => { href := "/blog/" ++ blog, text := blog })

/-- Render state of a BlogPage instance: blogMd is the resolved markdown
body (the constructor initialises it to the empty string, which also means
not yet resolved or not found); headers is unset until a successful
resolution assigns the first lines. -/
structure RenderState where
  blogMd : String
  headers : Option (List String)
deriving DecidableEq, Repr

/-- State of a freshly constructed BlogPage element. -/
def RenderState.initial : RenderState :=
  { blogMd := "", headers := none }

/-- Observable outcome of one run of BlogPage.init: the render state it
leaves behind, how many document fetches (dynamic imports of the markdown
asset) it performed, and whether a failure escaped the async function as a
rejected promise that no caller handles (firstUpdated drops the promise
returned by init). -/
structure InitResult where
  state : RenderState
  fetchCalls : Nat
  uncaught : Bool
deriving DecidableEq, Repr

/-- Embedding of BlogPage.init. The registry (the list imported from
blogs.js) and the document store (the dynamic import of
./assets/<blog>.md, none when the asset is absent or the load errors, in
which case the await throws and the rest of the body never runs) are
parameters. When the id is not registered the body is set empty and the
function returns before any fetch; on a successful fetch the document is
split on newlines, the first three lines become headers and the rest,
rejoined with newlines, becomes the body. -/
def BlogPage.init (blogs : List String) (store : String → Option String)
    (blog : String) (s : RenderState) : InitResult :=
  if !(blogs.contains blog) then
    { state := { s with blogMd := "" }, fetchCalls := 0, uncaught := false }
  else
    match store blog with
    | some content =>
      let lines := jsSplit content '\n'
      let headers := lines.take 3
      let body := lines.drop 3
      { state := { blogMd := String.intercalate "\n" body, headers := some headers },
        fetchCalls := 1, uncaught := false }
    | none =>
      { state := s, fetchCalls := 1, uncaught := true }

/-- Output of BlogPage.render: either a plain-text template or raw HTML
inserted through the unsafeHTML directive. -/
inductive Rendered where
  | text (s : String) : Rendered
  | rawHtml (s : String) : Rendered
deriving DecidableEq, Repr

/-- Literal placeholder text BlogPage.render shows when the body is empty. -/
def notFoundText : String := "That page doesn\x27t exist!"

/-- Embedding of BlogPage.render: the empty body renders the placeholder,
a non-empty body renders the showdown conversion of the body, inserted as
raw HTML. The markdown converter (showdown's makeHtml, a library) is a
parameter. -/
def BlogPage.render (makeHtml : String → String) (s : RenderState) : Rendered :=
  if s.blogMd = "" then
    Rendered.text notFoundText
  else
    Rendered.rawHtml (makeHtml s.blogMd)

/-- C1: selectView follows the first-match dispatch table. The root path
gives the home view, "/blog" gives the index view, and every other path
starting with "/blog" gives a post view whose id is the third
slash-delimited segment of the path, segments beyond the third being
ignored (so "/blog/foo" and "/blog/foo/bar" both give id "foo"). -/
theorem selectView_dispatch_table :
    selectView "/" = some ViewDescriptor.home ∧
    selectView "/blog" = some ViewDescriptor.index ∧
    selectView "/blog/foo" = some (ViewDescriptor.post (some "foo")) ∧
    selectView "/blog/foo/bar" = some (ViewDescriptor.post (some "foo")) ∧
    ∀ p : String, jsStartsWith p "/blog" = true → p ≠ "/blog" →
      selectView p = some (ViewDescriptor.post (thirdSegment p)) := by
  refine ⟨by decide, by decide, by decide, by decide, ?_⟩
  intro p hpre hne
  have h1 : p ≠ "/" := by
    intro h
    subst h
    exact absurd hpre (by decide)
  simp only [selectView, MainPage.pages, thirdSegment]
  rw [if_neg h1, if_neg hne, if_pos hpre]

/-- C1 witness: the dispatch table evaluated on a concrete deep path. -/
theorem selectView_dispatch_table_witness :
    selectView "/blog/x/y/z" = some (ViewDescriptor.post (thirdSegment "/blog/x/y/z")) :=
  selectView_dispatch_table.2.2.2.2 "/blog/x/y/z" (by decide) (by decide)

/-- C7: a path matching none of the three router rules selects no view,
and the page slot of the composed markup renders nothing. -/
theorem unmatched_path_renders_nothing (p : String)
    (h1 : p ≠ "/") (h2 : p ≠ "/blog") (h3 : jsStartsWith p "/blog" = false) :
    selectView p = none ∧
    ∀ loc : Location, loc.pathname = p → (MainPage.render loc).slot = none := by
  constructor
  · simp [selectView, MainPage.pages, h1, h2, h3]
  · intro loc hl
    simp [MainPage.render, MainPage.pages, hl, h1, h2, h3]

/-- C7 witness: the unmatched-path theorem at the concrete path "/nope". -/
theorem unmatched_path_renders_nothing_witness :
    selectView "/nope" = none :=
  (unmatched_path_renders_nothing "/nope" (by decide) (by decide) (by decide)).1

/-- C8: the routing step is deterministic and pure. It depends on nothing
but the pathname (two locations agreeing on pathname produce identical
results, console output included), and two evaluations of selectView on
the same path yield the same view descriptor. -/
theorem selectView_deterministic_pure (loc1 loc2 : Location)
    (h : loc1.pathname = loc2.pathname) :
    MainPage.pages loc1 = MainPage.pages loc2 ∧
    ∀ v1 v2 : Option ViewDescriptor,
      selectView loc1.pathname = v1 → selectView loc1.pathname = v2 → v1 = v2 := by
  constructor
  · unfold MainPage.pages
    rw [h]
  · intro v1 v2 e1 e2
    exact e1.symm.trans e2

/-- C8 witness: two locations sharing a pathname but differing in search
and hash route identically. -/
theorem selectView_deterministic_pure_witness :
    MainPage.pages { pathname := "/blog/a", search := "?q=1", hash := "#top" } =
      MainPage.pages { pathname := "/blog/a", search := "", hash := "" } :=
  (selectView_deterministic_pure
    { pathname := "/blog/a", search := "?q=1", hash := "#top" }
    { pathname := "/blog/a", search := "", hash := "" } rfl).1

/-- C9: the index view renders exactly one link per registered id, each
pointing at the post path for that id, in registry order (the i-th link is
built from the i-th registered id). -/
theorem index_links_per_registered_id (blogs : List String) :
    (BlogsPage.render blogs).length = blogs.length ∧
    ∀ i : Nat, (BlogsPage.render blogs)[i]? =
      (blogs[i]?).map (fun blog => { href := "/blog/" ++ blog, text := blog }) := by
  refine ⟨by simp [BlogsPage.render], ?_⟩
  intro i
  simp [BlogsPage.render]

/-- C2: an id absent from the registry resolves to the not-found state
(the body stays the empty string) and the fetch step is never reached. -/
theorem unregistered_id_no_fetch (blogs : List String)
    (store : String → Option String) (blog : String) (s : RenderState)
    (h : blogs.contains blog = false) :
    (BlogPage.init blogs store blog s).state.blogMd = "" ∧
    (BlogPage.init blogs store blog s).fetchCalls = 0 := by
  have hmem : blog ∉ blogs := by simpa using h
  simp [BlogPage.init, hmem]

/-- C2 witness: resolving an unregistered id against a one-post registry. -/
theorem unregistered_id_no_fetch_witness :
    (BlogPage.init ["a"] (fun _ => some "doc") "b" RenderState.initial).state.blogMd = "" ∧
    (BlogPage.init ["a"] (fun _ => some "doc") "b" RenderState.initial).fetchCalls = 0 :=
  unregistered_id_no_fetch ["a"] (fun _ => some "doc") "b" RenderState.initial (by decide)

/-- C3: a registered id whose fetched document has at least three lines
resolves to headers that are exactly the first three lines (three entries)
and a body that is the remaining lines rejoined with newlines. -/
theorem registered_id_parses_headers_body (blogs : List String)
    (store : String → Option String) (blog content : String) (s : RenderState)
    (hreg : blogs.contains blog = true) (hstore : store blog = some content)
    (hlen : 3 ≤ (jsSplit content '\n').length) :
    (BlogPage.init blogs store blog s).state.headers =
      some ((jsSplit content '\n').take 3) ∧
    ((jsSplit content '\n').take 3).length = 3 ∧
    (BlogPage.init blogs store blog s).state.blogMd =
      String.intercalate "\n" ((jsSplit content '\n').drop 3) := by
  have hmem : blog ∈ blogs := by simpa using hreg
  refine ⟨?_, ?_, ?_⟩
  · simp [BlogPage.init, hmem, hstore]
  · simp only [List.length_take]
    omega
  · simp [BlogPage.init, hmem, hstore]

/-- C3 witness: a four-line document resolves to three header lines and a
one-line body. -/
theorem registered_id_parses_headers_body_witness :
    (BlogPage.init ["a"] (fun _ => some "t\nd\ng\nbody") "a" RenderState.initial).state.headers =
      some ((jsSplit "t\nd\ng\nbody" '\n').take 3) ∧
    ((jsSplit "t\nd\ng\nbody" '\n').take 3).length = 3 ∧
    (BlogPage.init ["a"] (fun _ => some "t\nd\ng\nbody") "a" RenderState.initial).state.blogMd =
      String.intercalate "\n" ((jsSplit "t\nd\ng\nbody" '\n').drop 3) :=
  registered_id_parses_headers_body ["a"] (fun _ => some "t\nd\ng\nbody") "a"
    "t\nd\ng\nbody" RenderState.initial (by decide) rfl (by decide)

/-- Helper: rejoining an empty list of lines gives the empty string. -/
theorem intercalate_nil_eq_empty (s : String) : s.intercalate [] = "" := rfl

/-- C4: a registered id whose fetched document has fewer than three lines
resolves without error: headers is exactly the available lines and the
body is the empty string. -/
theorem short_document_degrades (blogs : List String)
    (store : String → Option String) (blog content : String) (s : RenderState)
    (hreg : blogs.contains blog = true) (hstore : store blog = some content)
    (hlen : (jsSplit content '\n').length < 3) :
    (BlogPage.init blogs store blog s).uncaught = false ∧
    (BlogPage.init blogs store blog s).state.headers = some (jsSplit content '\n') ∧
    (BlogPage.init blogs store blog s).state.blogMd = "" := by
  have hle : (jsSplit content '\n').length ≤ 3 := Nat.le_of_lt hlen
  have hmem : blog ∈ blogs := by simpa using hreg
  refine ⟨?_, ?_, ?_⟩ <;>
    simp [BlogPage.init, hmem, hstore, List.take_of_length_le hle,
      List.drop_eq_nil_of_le hle, intercalate_nil_eq_empty]

/-- C4 witness: a two-line document resolves to two header lines and an
empty body with no error. -/
theorem short_document_degrades_witness :
    (BlogPage.init ["a"] (fun _ => some "t\nd") "a" RenderState.initial).uncaught = false ∧
    (BlogPage.init ["a"] (fun _ => some "t\nd") "a" RenderState.initial).state.headers =
      some (jsSplit "t\nd" '\n') ∧
    (BlogPage.init ["a"] (fun _ => some "t\nd") "a" RenderState.initial).state.blogMd = "" :=
  short_document_degrades ["a"] (fun _ => some "t\nd") "a" "t\nd" RenderState.initial
    (by decide) rfl (by decide)

/-- C5 counterexample: with registry ["a"] and a store that fails on "a",
init leaves the body empty (so the not-found view shows) but the load
failure escapes the resolver as a rejected promise nobody handles
(firstUpdated drops the promise returned by init), contradicting the
claim that no failure propagates out of the resolver as an unhandled
fault. -/
theorem fetch_failure_counterexample :
    (BlogPage.init ["a"] (fun _ => none) "a" RenderState.initial).state.blogMd = "" ∧
    (BlogPage.init ["a"] (fun _ => none) "a" RenderState.initial).uncaught = true :=
  ⟨rfl, rfl⟩

/-- C5 amended: for a registered id whose fetch fails, the body stays
empty and the does-not-exist view is shown, but the failure escapes the
resolver as an uncaught rejected promise rather than being handled
locally. -/
theorem fetch_failure_notfound_amended (blogs : List String)
    (store : String → Option String) (blog : String) (makeHtml : String → String)
    (s : RenderState) (hs : s.blogMd = "")
    (hreg : blogs.contains blog = true) (hstore : store blog = none) :
    (BlogPage.init blogs store blog s).state.blogMd = "" ∧
    BlogPage.render makeHtml (BlogPage.init blogs store blog s).state =
      Rendered.text notFoundText ∧
    (BlogPage.init blogs store blog s).uncaught = true := by
  have hmem : blog ∈ blogs := by simpa using hreg
  refine ⟨?_, ?_, ?_⟩ <;>
    simp [BlogPage.init, hmem, hstore, BlogPage.render, hs]

/-- C5 amended witness: the amended statement at a concrete registry,
failing store and identity converter. -/
theorem fetch_failure_notfound_amended_witness :
    (BlogPage.init ["a"] (fun _ => none) "a" RenderState.initial).state.blogMd = "" ∧
    BlogPage.render (fun m => m)
      (BlogPage.init ["a"] (fun _ => none) "a" RenderState.initial).state =
      Rendered.text notFoundText ∧
    (BlogPage.init ["a"] (fun _ => none) "a" RenderState.initial).uncaught = true :=
  fetch_failure_notfound_amended ["a"] (fun _ => none) "a" (fun m => m)
    RenderState.initial rfl (by decide) rfl

/-- C6: the post view render step is a function of the resolved body
alone: states agreeing on the body render identically, an empty body
renders the does-not-exist placeholder, and a non-empty body renders
exactly the markdown conversion of the body as raw HTML. -/
theorem post_render_function_of_body (makeHtml : String → String)
    (s t : RenderState) :
    (s.blogMd = t.blogMd → BlogPage.render makeHtml s = BlogPage.render makeHtml t) ∧
    (s.blogMd = "" → BlogPage.render makeHtml s = Rendered.text notFoundText) ∧
    (s.blogMd ≠ "" → BlogPage.render makeHtml s = Rendered.rawHtml (makeHtml s.blogMd)) := by
  refine ⟨?_, ?_, ?_⟩
  · intro h
    unfold BlogPage.render
    rw [h]
  · intro h
    simp [BlogPage.render, h]
  · intro h
    simp [BlogPage.render, h]

/-- C6 witness: the empty-body case of the render step at a concrete
state and converter. -/
theorem post_render_function_of_body_witness :
    BlogPage.render (fun m => m) { blogMd := "", headers := none } =
      Rendered.text notFoundText :=
  (post_render_function_of_body (fun m => m) { blogMd := "", headers := none }
    { blogMd := "", headers := none }).2.1 rfl

/-- C10: a registered id whose document has at most three lines resolves
to an empty body, and the post view then renders exactly the same
does-not-exist output as it does for an unregistered id: at the public
interface a body-less document is indistinguishable from a missing
post. -/
theorem malformed_document_indistinguishable (blogs : List String)
    (store : String → Option String) (blog other : String)
    (makeHtml : String → String) (content : String)
    (hreg : blogs.contains blog = true) (hstore : store blog = some content)
    (hlen : (jsSplit content '\n').length ≤ 3)
    (hother : blogs.contains other = false) :
    (BlogPage.init blogs store blog RenderState.initial).state.blogMd = "" ∧
    BlogPage.render makeHtml (BlogPage.init blogs store blog RenderState.initial).state =
      Rendered.text notFoundText ∧
    BlogPage.render makeHtml (BlogPage.init blogs store other RenderState.initial).state =
      BlogPage.render makeHtml (BlogPage.init blogs store blog RenderState.initial).state := by
  have hmem : blog ∈ blogs := by simpa using hreg
  have hnot : other ∉ blogs := by simpa using hother
  have hdrop : (jsSplit content '\n').drop 3 = [] := List.drop_eq_nil_of_le hlen
  refine ⟨?_, ?_, ?_⟩ <;>
    simp [BlogPage.init, hmem, hnot, hstore, hdrop, intercalate_nil_eq_empty,
      BlogPage.render, RenderState.initial]

/-- C10 witness: a three-line document and an unregistered id both render
the placeholder. -/
theorem malformed_document_indistinguishable_witness :
    (BlogPage.init ["a"] (fun _ => some "t\nd\ng") "a" RenderState.initial).state.blogMd = "" ∧
    BlogPage.render (fun m => m)
      (BlogPage.init ["a"] (fun _ => some "t\nd\ng") "a" RenderState.initial).state =
      Rendered.text notFoundText ∧
    BlogPage.render (fun m => m)
      (BlogPage.init ["a"] (fun _ => some "t\nd\ng") "b" RenderState.initial).state =
      BlogPage.render (fun m => m)
        (BlogPage.init ["a"] (fun _ => some "t\nd\ng") "a" RenderState.initial).state :=
  malformed_document_indistinguishable ["a"] (fun _ => some "t\nd\ng") "a" "b"
    (fun m => m) "t\nd\ng" (by decide) rfl (by decide) (by decide)
